import Mathlib

/-!
Verification development for the filter-and-summarize engine of
`analysis_tab.py` (function `display_analysis`, filtering section).
The Python source operates on a pandas DataFrame; here a dataset is a
`List Record`, a column operation is a `List.map`, a boolean Series is a
`List Bool`, and `DataFrame.__getitem__` with a boolean mask is `applyMask`.
Missing values (pandas `NaN`) and the Python `None` sentinel returned by a
deactivated selectbox are modelled explicitly, together with Python
truthiness (`if status:`) and the pandas comparison semantics under which
`NaN` compares unequal to everything, itself included.
-/

/-- A Python value as it occurs in a categorical column or as a selectbox
result: the `None` sentinel, a missing cell (float `NaN`), a string, or an
integer. -/
inductive PyVal where
  | pyNone : PyVal
  | pyNaN : PyVal
  | pyStr : String → PyVal
  | pyInt : ℤ → PyVal
deriving DecidableEq, Repr

/-- Python truthiness, as tested by `if status:` in the source: `None` is
falsy, `NaN` is a nonzero float and hence truthy, a string is truthy when
nonempty, an integer when nonzero. -/
def pyTruthy : PyVal → Bool
  | PyVal.pyNone => false
  | PyVal.pyNaN => true
  | PyVal.pyStr s => !(s == "")
  | PyVal.pyInt n => !(n == 0)

/-- Pandas elementwise equality (`Series == value`): equal strings or equal
integers compare `True`; `NaN` compares `False` against everything,
including another `NaN`; the `None` sentinel also compares `False`. -/
def pyEq : PyVal → PyVal → Bool
  | PyVal.pyStr s, PyVal.pyStr t => s == t
  | PyVal.pyInt m, PyVal.pyInt n => m == n
  | _, _ => false

/-- One row of the insurance-claims dataset, restricted to the columns the
filtering section of `display_analysis` reads. `age` is `Option` because a
missing age is a `NaN` cell; `claim_amount` is the validated numeric target
column and is always present. -/
structure Record where
  age : Option ℚ
  claim_amount : ℚ
  gender : PyVal
  accident_type : PyVal
  collision_type : PyVal
  incident_severity : PyVal
  authorities_contacted : PyVal
  state : PyVal
  property_damage : PyVal
  bodily_injuries : PyVal
  police_report_available : PyVal
  auto_make : PyVal
  auto_model : PyVal
  auto_year : PyVal
deriving DecidableEq, Repr

/-- The state of the filter panel: the age-slider bounds and, for each
categorical selectbox, the chosen value (`pyNone` when the user keeps the
default "None" option). -/
structure Selections where
  minAge : ℚ
  maxAge : ℚ
  gender : PyVal
  accident_type : PyVal
  collision_type : PyVal
  incident_severity : PyVal
  authorities_contacted : PyVal
  state : PyVal
  property_damage : PyVal
  bodily_injuries : PyVal
  police_report_available : PyVal
  auto_make : PyVal
  auto_model : PyVal
  auto_year : PyVal
deriving DecidableEq, Repr

/-- Pointwise conjunction of two boolean Series (`&` in the source). -/
def andMask (xs ys : List Bool) : List Bool := List.zipWith (fun a b => a && b) xs ys

/-- Pointwise negation of a boolean Series (`~all_conditions`). -/
def negMask (m : List Bool) : List Bool := m.map (fun b => !b)

/-- Row selection by boolean mask, `data[mask]` in pandas. -/
def applyMask : List α → List Bool → List α
  | x :: xs, b :: m => if b then x :: applyMask xs m else applyMask xs m
  | _, _ => []

/-- Pandas `Series >= lo` on the age column: a missing age compares
`False`. -/
def pyGeAge (a : Option ℚ) (lo : ℚ) : Bool :=
  match a with
  | some v => decide (lo ≤ v)
  | Option.none => false

/-- Pandas `Series <= hi` on the age column: a missing age compares
`False`. -/
def pyLeAge (a : Option ℚ) (hi : ℚ) : Bool :=
  match a with
  | some v => decide (v ≤ hi)
  | Option.none => false

/-- `age_condition = (data["age"] >= min_age) & (data["age"] <= max_age)`. -/
def ageCondition (data : List Record) (lo hi : ℚ) : List Bool :=
  andMask (data.map (fun r => pyGeAge r.age lo)) (data.map (fun r => pyLeAge r.age hi))

/-- One categorical filter block of the source:
`if status: cond = (data[col] == status) else: cond = True`.
The scalar `True` of the inert branch broadcasts over the column, modelled
as an all-true Series of the same length. -/
def catCondition (data : List Record) (get : Record → PyVal) (status : PyVal) : List Bool :=
  if pyTruthy status then data.map (fun r => pyEq (get r) status)
  else data.map (fun _ => true)

/-- `all_conditions`: the left-associated `&`-chain of the thirteen
per-field conditions, in source order. -/
def allConditions (data : List Record) (s : Selections) : List Bool :=
  andMask (andMask (andMask (andMask (andMask (andMask (andMask (andMask (andMask
    (andMask (andMask (andMask
      (ageCondition data s.minAge s.maxAge)
      (catCondition data Record.gender s.gender))
      (catCondition data Record.accident_type s.accident_type))
      (catCondition data Record.collision_type s.collision_type))
      (catCondition data Record.incident_severity s.incident_severity))
      (catCondition data Record.authorities_contacted s.authorities_contacted))
      (catCondition data Record.state s.state))
      (catCondition data Record.property_damage s.property_damage))
      (catCondition data Record.bodily_injuries s.bodily_injuries))
      (catCondition data Record.police_report_available s.police_report_available))
      (catCondition data Record.auto_make s.auto_make))
      (catCondition data Record.auto_model s.auto_model))
      (catCondition data Record.auto_year s.auto_year)

/-- Pandas `Series.min()` over a numeric column, skipping nothing (callers
pass columns with missing cells already removed); `Option.none` on an empty
column, where pandas would return `NaN`. -/
def colMin? : List ℚ → Option ℚ
  | [] => Option.none
  | x :: xs => some (xs.foldl min x)

/-- Pandas `Series.max()`, same conventions as `colMin?`. -/
def colMax? : List ℚ → Option ℚ
  | [] => Option.none
  | x :: xs => some (xs.foldl max x)

/-- The maximum of the selected claim column as used by the chart selector;
the selector only evaluates it behind a nonemptiness guard, so the default
on an empty list is never observed. -/
def listMaxQ (xs : List ℚ) : ℚ := (colMax? xs).getD 0

/-- Pandas `Series.quantile(q)` with the default linear interpolation:
sort ascending, take position `h = q * (n - 1)` and interpolate linearly
between the neighbouring order statistics. Callers guard against the empty
column. -/
def quantileQ (xs : List ℚ) (q : ℚ) : ℚ :=
  let s := List.insertionSort (fun a b : ℚ => a ≤ b) xs
  let h := q * ((s.length : ℚ) - 1)
  let i := Int.toNat ⌊h⌋
  let lo := s.getD i 0
  let hi := s.getD (i + 1) lo
  lo + (h - (⌊h⌋ : ℚ)) * (hi - lo)

/-- Truncation toward zero, the effect of numpy `astype(int)` on the
slider bounds. -/
def truncQ (q : ℚ) : ℤ := if 0 ≤ q then ⌊q⌋ else ⌈q⌉

/-- Round-half-to-even to an integer, the numpy/pandas rounding mode. -/
def roundHalfEven (q : ℚ) : ℤ :=
  if q - ⌊q⌋ < 1 / 2 then ⌊q⌋
  else if 1 / 2 < q - ⌊q⌋ then ⌊q⌋ + 1
  else if ⌊q⌋ % 2 = 0 then ⌊q⌋ else ⌊q⌋ + 1

/-- Pandas `round(2)`: round to two decimal places, half to even. -/
def round2 (q : ℚ) : ℚ := (roundHalfEven (q * 100) : ℚ) / 100

/-- A cell of a pandas `describe()` vector. `num q` is an exact rational
value, `nan` a missing value, and `stdCell v` is the standard-deviation
cell with sample variance `v` (its value, the square root of `v`, is
irrational in general and is kept symbolic; the source drops this row
before display, so no displayed cell ever holds it). -/
inductive StatVal where
  | num : ℚ → StatVal
  | nan : StatVal
  | stdCell : ℚ → StatVal
deriving DecidableEq, Repr

/-- `round(2)` lifted to a describe cell: `NaN` rounds to `NaN`; the
standard-deviation cell is kept symbolic (the source rounds its float
value, but the cell is dropped before display, so the rounding never
reaches the output table). -/
def roundStat : StatVal → StatVal
  | StatVal.num q => StatVal.num (round2 q)
  | StatVal.nan => StatVal.nan
  | StatVal.stdCell v => StatVal.stdCell v

/-- The `count` entry of `describe()`. -/
def countStat (xs : List ℚ) : StatVal := StatVal.num (xs.length : ℚ)

/-- The `mean` entry of `describe()`: `NaN` on an empty column. -/
def meanStat (xs : List ℚ) : StatVal :=
  if xs.length = 0 then StatVal.nan else StatVal.num (xs.sum / (xs.length : ℚ))

/-- Sample variance with one delta degree of freedom (pandas `std`
squared); meaningful only when the column has at least two entries. -/
def sampleVar (xs : List ℚ) : ℚ :=
  (xs.map (fun x => (x - xs.sum / (xs.length : ℚ)) ^ 2)).sum / ((xs.length : ℚ) - 1)

/-- The `std` entry of `describe()`: `NaN` on a column with fewer than two
entries, otherwise the (symbolic) square root of the sample variance. -/
def stdStat (xs : List ℚ) : StatVal :=
  if xs.length ≤ 1 then StatVal.nan else StatVal.stdCell (sampleVar xs)

/-- The `min` entry of `describe()`. -/
def minStat (xs : List ℚ) : StatVal :=
  match colMin? xs with
  | some m => StatVal.num m
  | Option.none => StatVal.nan

/-- The `max` entry of `describe()`. -/
def maxStat (xs : List ℚ) : StatVal :=
  match colMax? xs with
  | some m => StatVal.num m
  | Option.none => StatVal.nan

/-- A quantile entry of `describe()` (`25%`, `50%`, `75%`): `NaN` on an
empty column. -/
def quantStat (xs : List ℚ) (q : ℚ) : StatVal :=
  if xs.length = 0 then StatVal.nan else StatVal.num (quantileQ xs q)

/-- `Series.describe()` on a numeric column: the eight statistics in the
fixed pandas output order, keyed by their pandas index labels. -/
def describeQ (xs : List ℚ) : List (String × StatVal) :=
  [("count", countStat xs),
   ("mean", meanStat xs),
   ("std", stdStat xs),
   ("min", minStat xs),
   ("25%", quantStat xs (1 / 4)),
   ("50%", quantStat xs (1 / 2)),
   ("75%", quantStat xs (3 / 4)),
   ("max", maxStat xs)]

/-- `describe().round(2)`: the describe vector with each cell rounded. -/
def describeR (xs : List ℚ) : List (String × StatVal) :=
  (describeQ xs).map (fun p => (p.1, roundStat p.2))

/-- `DataFrame.merge` on a key column: inner join, left order preserved;
for each left row, pair it with the first right row carrying the same key.
Keys here are the eight distinct statistic labels, so the join is
one-to-one. -/
def mergeOn (left : List (String × α)) (right : List (String × β)) :
    List (String × α × β) :=
  left.filterMap (fun p =>
    (right.find? (fun r => r.1 == p.1)).map (fun r => (p.1, p.2, r.2)))

/-- The label-renaming dictionary passed to `Series.map` on the
`Statistic` column. Keys outside the dictionary map to a missing value in
pandas; the describe index contains no such key, so the fallback is never
taken. -/
def statDisplay : String → String
  | "count" => "Number of Rows"
  | "mean" => "Average Value"
  | "std" => "Standard Deviation"
  | "min" => "Minimum Value"
  | "25%" => "25th Percentile Value"
  | "50%" => "Median Value"
  | "75%" => "75th Percentile Value"
  | "max" => "Maximum Value"
  | _ => ""

/-- The claim-amount column of the selected partition. -/
def selClaims (data : List Record) (mask : List Bool) : List ℚ :=
  (applyMask data mask).map Record.claim_amount

/-- The claim-amount column of the excluded partition
(`data[~all_conditions]`). -/
def excClaims (data : List Record) (mask : List Bool) : List ℚ :=
  (applyMask data (negMask mask)).map Record.claim_amount

/-- The claim-amount column of the full dataset. -/
def allClaims (data : List Record) : List ℚ :=
  data.map Record.claim_amount

/-- The `description_table` construction of the source: describe the
selected and excluded claim columns (each rounded), inner-join them on the
statistic label, attach the rounded full-data describe values positionally
(the `describe_df` assignment) and join again on the label, rename the
labels to display text, drop the row at position 2 (standard deviation),
and reorder the remaining rows by `iloc[[0, 2, 3, 4, 1, 5, 6]]`. -/
def descriptionTable (data : List Record) (mask : List Bool) :
    List (String × StatVal × StatVal × StatVal) :=
  let t1 := mergeOn (describeR (selClaims data mask)) (describeR (excClaims data mask))
  let describeDf := List.zip (t1.map (fun p => p.1))
    ((describeQ (allClaims data)).map (fun p => roundStat p.2))
  let t2 := mergeOn t1 describeDf
  let t3 := t2.map (fun p => (statDisplay p.1, p.2.1.1, p.2.1.2, p.2.2))
  let t4 := t3.eraseIdx 2
  [0, 2, 3, 4, 1, 5, 6].filterMap (fun i => t4[i]?)

/-- The sample-size advisory of the source: shown when
`data[all_conditions].shape[0] <= 10`. -/
def smallSampleAdvisory (sel : List Record) : Bool := decide (sel.length ≤ 10)

/-- The distribution-chart branch of the source: no chart below ten
selected rows; otherwise compare the upper tail spread against the body
spread of the selected claim column and either trim strictly below the
90th percentile or plot the full selection, with the corresponding label. -/
def chartDecision (sel : List Record) : Option (List Record × String) :=
  if 10 ≤ sel.length then
    let claims := sel.map Record.claim_amount
    if listMaxQ claims - quantileQ claims (9 / 10) >
        quantileQ claims (9 / 10) - quantileQ claims (3 / 4) then
      some (sel.filter (fun r => decide (r.claim_amount < quantileQ claims (9 / 10))),
        "Selected Data without Extreme Outliers")
    else
      some (sel, "Selected Data")
  else Option.none

/-- The whole interaction pass: combined mask, comparison table, advisory
flag and chart decision, as recomputed from scratch on every widget
change. -/
def filterPipeline (data : List Record) (s : Selections) :
    List Bool × List (String × StatVal × StatVal × StatVal) × Bool ×
      Option (List Record × String) :=
  let m := allConditions data s
  (m, descriptionTable data m, smallSampleAdvisory (applyMask data m),
    chartDecision (applyMask data m))

example : pyTruthy PyVal.pyNone = false := rfl
example : pyTruthy (PyVal.pyInt 0) = false := rfl
example : pyEq PyVal.pyNaN PyVal.pyNaN = false := rfl
example : quantileQ [1, 2, 3, 4, 5, 6, 7, 8, 9, 1000] (9 / 10) = 1081 / 10 := by
  norm_num [quantileQ, List.insertionSort, List.orderedInsert, Int.toNat,
    List.getElem_cons_succ, List.getElem_cons_zero]
example : quantileQ [1, 2, 3, 4, 5, 6, 7, 8, 9, 1000] (3 / 4) = 31 / 4 := by
  norm_num [quantileQ, List.insertionSort, List.orderedInsert, Int.toNat,
    List.getElem_cons_succ, List.getElem_cons_zero]

/-- The per-row reading of one categorical filter block. -/
def catPred (v status : PyVal) : Bool :=
  if pyTruthy status then pyEq v status else true

/-- The per-row reading of the whole `all_conditions` conjunction. -/
def rowPred (s : Selections) (r : Record) : Bool :=
  ((((((((((((pyGeAge r.age s.minAge && pyLeAge r.age s.maxAge)
    && catPred r.gender s.gender)
    && catPred r.accident_type s.accident_type)
    && catPred r.collision_type s.collision_type)
    && catPred r.incident_severity s.incident_severity)
    && catPred r.authorities_contacted s.authorities_contacted)
    && catPred r.state s.state)
    && catPred r.property_damage s.property_damage)
    && catPred r.bodily_injuries s.bodily_injuries)
    && catPred r.police_report_available s.police_report_available)
    && catPred r.auto_make s.auto_make)
    && catPred r.auto_model s.auto_model)
    && catPred r.auto_year s.auto_year

lemma andMask_map {α : Type} (xs : List α) (f g : α → Bool) :
    andMask (xs.map f) (xs.map g) = xs.map (fun x => f x && g x) := by
  induction xs with
  | nil => rfl
  | cons x xs ih => simp [andMask, List.zipWith] at ih ⊢

lemma catCondition_map (data : List Record) (get : Record → PyVal) (status : PyVal) :
    catCondition data get status = data.map (fun r => catPred (get r) status) := by
  by_cases h : pyTruthy status
  · simp [catCondition, catPred, h]
  · simp [catCondition, catPred, h]

lemma ageCondition_map (data : List Record) (lo hi : ℚ) :
    ageCondition data lo hi = data.map (fun r => pyGeAge r.age lo && pyLeAge r.age hi) := by
  simp [ageCondition, andMask_map]

/-- The conjunction of thirteen column conditions is the columnwise map of
the per-row conjunction. -/
lemma allConditions_map (data : List Record) (s : Selections) :
    allConditions data s = data.map (rowPred s) := by
  simp only [allConditions, ageCondition_map, catCondition_map, andMask_map]
  rfl

lemma allConditions_length (data : List Record) (s : Selections) :
    (allConditions data s).length = data.length := by
  rw [allConditions_map]; simp

lemma applyMask_nil_mask (xs : List α) : applyMask xs ([] : List Bool) = [] := by
  cases xs <;> rfl

lemma applyMask_all_false (xs : List α) (m : List Bool)
    (h : ∀ b ∈ m, b = false) : applyMask xs m = [] := by
  induction xs generalizing m with
  | nil => cases m <;> rfl
  | cons x xs ih =>
    cases m with
    | nil => rfl
    | cons b m =>
      have hb : b = false := h b (List.mem_cons_self b m)
      subst hb
      simpa [applyMask] using ih m (fun c hc => h c (List.mem_cons_of_mem _ hc))

lemma applyMask_neg_all_false (xs : List α) (m : List Bool)
    (hlen : m.length = xs.length) (h : ∀ b ∈ m, b = false) :
    applyMask xs (negMask m) = xs := by
  induction xs generalizing m with
  | nil => cases m <;> rfl
  | cons x xs ih =>
    cases m with
    | nil => simp at hlen
    | cons b m =>
      have hb : b = false := h b (List.mem_cons_self b m)
      subst hb
      simp only [negMask, List.map, Bool.not_false, applyMask, if_pos]
      have := ih m (by simpa using hlen) (fun c hc => h c (List.mem_cons_of_mem _ hc))
      simpa [negMask] using congrArg (List.cons x) this

lemma applyMask_map_all_true (xs : List α) (p : α → Bool)
    (h : ∀ x ∈ xs, p x = true) : applyMask xs (xs.map p) = xs := by
  induction xs with
  | nil => rfl
  | cons x xs ih =>
    have hx : p x = true := h x (List.mem_cons_self x xs)
    simp only [List.map, hx, applyMask, if_pos]
    exact congrArg (List.cons x) (ih (fun y hy => h y (List.mem_cons_of_mem _ hy)))

lemma mem_applyMask_map (xs : List α) (p : α → Bool) (x : α)
    (hmem : x ∈ xs) (hx : p x = true) : x ∈ applyMask xs (xs.map p) := by
  induction xs with
  | nil => cases hmem
  | cons y ys ih =>
    rcases List.mem_cons.mp hmem with h | h
    · subst h
      simp [applyMask, hx]
    · by_cases hy : p y = true
      · simp only [List.map, hy, applyMask, if_pos]
        exact List.mem_cons_of_mem _ (ih h)
      · simp only [List.map, Bool.not_eq_true] at hy
        simp only [List.map, hy, applyMask]
        simpa using ih h

lemma applyMask_partition_perm (xs : List α) (m : List Bool)
    (h : m.length = xs.length) :
    (applyMask xs m ++ applyMask xs (negMask m)).Perm xs := by
  induction xs generalizing m with
  | nil => cases m <;> simp [applyMask, negMask]
  | cons x xs ih =>
    cases m with
    | nil => simp at h
    | cons b m =>
      have hm : m.length = xs.length := by simpa using h
      cases b with
      | true =>
        simp only [applyMask, negMask, List.map, Bool.not_true, if_pos, if_neg]
        exact ((ih m hm).cons x)
      | false =>
        simp only [applyMask, negMask, List.map, Bool.not_false, if_pos, if_neg]
        exact List.perm_middle.trans ((ih m hm).cons x)

lemma mask_comp_pointwise (m : List Bool) (i : ℕ) :
    (m.getD i false && (negMask m).getD i false) = false := by
  induction m generalizing i with
  | nil => simp [negMask]
  | cons b t ih =>
    cases i with
    | zero => cases b <;> simp [negMask]
    | succ j => simpa [negMask] using ih j

lemma foldl_min_le_init (xs : List ℚ) (a : ℚ) : xs.foldl min a ≤ a := by
  induction xs generalizing a with
  | nil => exact le_refl a
  | cons x xs ih => exact le_trans (ih (min a x)) (min_le_left a x)

lemma foldl_min_le_mem (xs : List ℚ) (a x : ℚ) (hx : x ∈ xs) : xs.foldl min a ≤ x := by
  induction xs generalizing a with
  | nil => cases hx
  | cons y ys ih =>
    rcases List.mem_cons.mp hx with h | h
    · subst h
      exact le_trans (foldl_min_le_init ys (min a x)) (min_le_right a x)
    · exact ih (min a y) h

lemma foldl_min_mem (xs : List ℚ) (a : ℚ) : xs.foldl min a = a ∨ xs.foldl min a ∈ xs := by
  induction xs generalizing a with
  | nil => exact Or.inl rfl
  | cons x xs ih =>
    rcases ih (min a x) with h | h
    · rcases min_choice a x with hm | hm
      · exact Or.inl (by rw [List.foldl, h, hm])
      · exact Or.inr (by rw [List.foldl, h, hm]; exact List.mem_cons_self x xs)
    · exact Or.inr (List.mem_cons_of_mem x h)

lemma foldl_max_init_le (xs : List ℚ) (a : ℚ) : a ≤ xs.foldl max a := by
  induction xs generalizing a with
  | nil => exact le_refl a
  | cons x xs ih => exact le_trans (le_max_left a x) (ih (max a x))

lemma foldl_max_mem_le (xs : List ℚ) (a x : ℚ) (hx : x ∈ xs) : x ≤ xs.foldl max a := by
  induction xs generalizing a with
  | nil => cases hx
  | cons y ys ih =>
    rcases List.mem_cons.mp hx with h | h
    · subst h
      exact le_trans (le_max_right a x) (foldl_max_init_le ys (max a x))
    · exact ih (max a y) h

lemma foldl_max_mem (xs : List ℚ) (a : ℚ) : xs.foldl max a = a ∨ xs.foldl max a ∈ xs := by
  induction xs generalizing a with
  | nil => exact Or.inl rfl
  | cons x xs ih =>
    rcases ih (max a x) with h | h
    · rcases max_choice a x with hm | hm
      · exact Or.inl (by rw [List.foldl, h, hm])
      · exact Or.inr (by rw [List.foldl, h, hm]; exact List.mem_cons_self x xs)
    · exact Or.inr (List.mem_cons_of_mem x h)

lemma colMin?_le (l : List ℚ) (m a : ℚ) (hm : colMin? l = some m) (ha : a ∈ l) : m ≤ a := by
  cases l with
  | nil => cases ha
  | cons x xs =>
    simp only [colMin?, Option.some.injEq] at hm
    subst hm
    rcases List.mem_cons.mp ha with h | h
    · subst h; exact foldl_min_le_init xs a
    · exact foldl_min_le_mem xs x a h

lemma colMin?_mem (l : List ℚ) (m : ℚ) (hm : colMin? l = some m) : m ∈ l := by
  cases l with
  | nil => cases hm
  | cons x xs =>
    simp only [colMin?, Option.some.injEq] at hm
    subst hm
    rcases foldl_min_mem xs x with h | h
    · rw [h]; exact List.mem_cons_self x xs
    · exact List.mem_cons_of_mem x h

lemma colMax?_ge (l : List ℚ) (m a : ℚ) (hm : colMax? l = some m) (ha : a ∈ l) : a ≤ m := by
  cases l with
  | nil => cases ha
  | cons x xs =>
    simp only [colMax?, Option.some.injEq] at hm
    subst hm
    rcases List.mem_cons.mp ha with h | h
    · subst h; exact foldl_max_init_le xs a
    · exact foldl_max_mem_le xs x a h

lemma colMax?_mem (l : List ℚ) (m : ℚ) (hm : colMax? l = some m) : m ∈ l := by
  cases l with
  | nil => cases hm
  | cons x xs =>
    simp only [colMax?, Option.some.injEq] at hm
    subst hm
    rcases foldl_max_mem xs x with h | h
    · rw [h]; exact List.mem_cons_self x xs
    · exact List.mem_cons_of_mem x h

lemma truncQ_intCast (n : ℤ) : truncQ (n : ℚ) = n := by
  by_cases h : (0 : ℚ) ≤ (n : ℚ)
  · simp [truncQ, h]
  · simp [truncQ, h]

/-- The age column with missing cells removed, the population over which
pandas computes the slider bounds (`data["age"].min()` skips `NaN`). -/
def presentAges (data : List Record) : List ℚ := data.filterMap Record.age

/-- The default lower slider bound,
`data["age"].min().astype(int)`: `Option.none` when no age is present (the
source would fail there, since the slider needs numeric bounds). -/
def defaultMinAge (data : List Record) : Option ℤ :=
  (colMin? (presentAges data)).map truncQ

/-- The default upper slider bound, `data["age"].max().astype(int)`. -/
def defaultMaxAge (data : List Record) : Option ℤ :=
  (colMax? (presentAges data)).map truncQ

/-- The all-inert filter state: every selectbox at its "None" default and
the age slider at the bounds `lo`, `hi`. -/
def noneSelections (lo hi : ℚ) : Selections :=
  ⟨lo, hi, PyVal.pyNone, PyVal.pyNone, PyVal.pyNone, PyVal.pyNone, PyVal.pyNone,
   PyVal.pyNone, PyVal.pyNone, PyVal.pyNone, PyVal.pyNone, PyVal.pyNone,
   PyVal.pyNone, PyVal.pyNone⟩

/-- The filter state built from the field values of one record: the age
range collapsed to the record age `a`, and each categorical selectbox set
to the record value of that field. -/
def selFromRecord (r : Record) (a : ℚ) : Selections :=
  ⟨a, a, r.gender, r.accident_type, r.collision_type, r.incident_severity,
   r.authorities_contacted, r.state, r.property_damage, r.bodily_injuries,
   r.police_report_available, r.auto_make, r.auto_model, r.auto_year⟩

lemma catPred_self (v : PyVal) (h : v ≠ PyVal.pyNaN) : catPred v v = true := by
  cases v with
  | pyNone => rfl
  | pyNaN => exact absurd rfl h
  | pyStr s => simp [catPred, pyTruthy, pyEq]
  | pyInt n => simp [catPred, pyTruthy, pyEq]

lemma mem_presentAges {data : List Record} {r : Record} {a : ℚ}
    (hmem : r ∈ data) (ha : r.age = some a) : a ∈ presentAges data := by
  exact List.mem_filterMap.mpr ⟨r, hmem, by rw [ha]⟩

/-- A concrete dataset row: age, claim amount, bodily-injury count and
authorities-contacted value vary; the remaining categorical cells are fixed
plausible values from the source columns. -/
def mkRec (a : Option ℚ) (c : ℚ) (inj : ℤ) (auth : PyVal) : Record :=
  ⟨a, c, PyVal.pyStr "Male", PyVal.pyStr "Multi-vehicle Collision",
   PyVal.pyStr "Rear Collision", PyVal.pyStr "Minor Damage", auth,
   PyVal.pyStr "NY", PyVal.pyStr "NO", PyVal.pyInt inj, PyVal.pyStr "YES",
   PyVal.pyStr "Saab", PyVal.pyStr "92x", PyVal.pyInt 2004⟩

/-- Nine-row selection, below the distribution-chart threshold. -/
def sel9W : List Record :=
  [mkRec (some 30) 1 1 (PyVal.pyStr "Police"), mkRec (some 30) 2 1 (PyVal.pyStr "Police"),
   mkRec (some 30) 3 1 (PyVal.pyStr "Police"), mkRec (some 30) 4 1 (PyVal.pyStr "Police"),
   mkRec (some 30) 5 1 (PyVal.pyStr "Police"), mkRec (some 30) 6 1 (PyVal.pyStr "Police"),
   mkRec (some 30) 7 1 (PyVal.pyStr "Police"), mkRec (some 30) 8 1 (PyVal.pyStr "Police"),
   mkRec (some 30) 9 1 (PyVal.pyStr "Police")]

/-- Ten-row selection whose claim column is the synthetic skew sequence
`[1, ..., 9, 1000]`. -/
def sel10W : List Record :=
  [mkRec (some 30) 1 1 (PyVal.pyStr "Police"), mkRec (some 30) 2 1 (PyVal.pyStr "Police"),
   mkRec (some 30) 3 1 (PyVal.pyStr "Police"), mkRec (some 30) 4 1 (PyVal.pyStr "Police"),
   mkRec (some 30) 5 1 (PyVal.pyStr "Police"), mkRec (some 30) 6 1 (PyVal.pyStr "Police"),
   mkRec (some 30) 7 1 (PyVal.pyStr "Police"), mkRec (some 30) 8 1 (PyVal.pyStr "Police"),
   mkRec (some 30) 9 1 (PyVal.pyStr "Police"), mkRec (some 30) 1000 1 (PyVal.pyStr "Police")]

/-- C3: For every combination of per-field selections (active or inert),
the selected rows (combined mask true) and the excluded rows (mask false)
are disjoint and together are a permutation of the full dataset, so the
two partition sizes sum to the total row count. -/
theorem mask_partition_property (data : List Record) (s : Selections) :
    (applyMask data (allConditions data s) ++
      applyMask data (negMask (allConditions data s))).Perm data ∧
    (applyMask data (allConditions data s)).length +
      (applyMask data (negMask (allConditions data s))).length = data.length ∧
    ∀ i : ℕ, ((allConditions data s).getD i false &&
      (negMask (allConditions data s)).getD i false) = false := by
  have hp := applyMask_partition_perm data (allConditions data s) (allConditions_length data s)
  refine ⟨hp, ?_, fun i => mask_comp_pointwise _ i⟩
  simpa [List.length_append] using hp.length_eq

/-- C4: With fewer than ten selected rows the chart selector yields no
distribution chart; with ten or more it yields a decision, whose label is
either the trimmed variant or the full variant. -/
theorem small_sample_chart_guard (sel : List Record) :
    (sel.length < 10 → chartDecision sel = Option.none) ∧
    (10 ≤ sel.length → ∃ plotted : List Record, ∃ lab : String,
      chartDecision sel = some (plotted, lab) ∧
      (lab = "Selected Data without Extreme Outliers" ∨ lab = "Selected Data")) := by
  constructor
  · intro h
    have hn : ¬ 10 ≤ sel.length := by omega
    simp [chartDecision, hn]
  · intro h
    by_cases hc : listMaxQ (sel.map Record.claim_amount) -
        quantileQ (sel.map Record.claim_amount) (9 / 10) >
        quantileQ (sel.map Record.claim_amount) (9 / 10) -
        quantileQ (sel.map Record.claim_amount) (3 / 4)
    · refine ⟨sel.filter (fun r =>
          decide (r.claim_amount < quantileQ (sel.map Record.claim_amount) (9 / 10))),
        "Selected Data without Extreme Outliers", ?_, Or.inl rfl⟩
      simp [chartDecision, h, hc]
    · refine ⟨sel, "Selected Data", ?_, Or.inr rfl⟩
      simp [chartDecision, h, hc]

/-- Witness for C4 at sizes nine and ten: nine rows give no chart, ten
rows give a decision. -/
theorem small_sample_chart_guard_witness :
    sel9W.length < 10 ∧ chartDecision sel9W = Option.none ∧
    10 ≤ sel10W.length ∧ (∃ plotted : List Record, ∃ lab : String,
      chartDecision sel10W = some (plotted, lab) ∧
      (lab = "Selected Data without Extreme Outliers" ∨ lab = "Selected Data")) :=
  ⟨by decide, (small_sample_chart_guard sel9W).1 (by decide), by decide,
    (small_sample_chart_guard sel10W).2 (by decide)⟩

/-- C5 counterexample: a selection of exactly ten rows, at which the
source still emits the advisory (`shape[0] <= 10`), contradicting the
claim that the advisory is absent from size ten upward. -/
theorem advisory_small_sample_counterexample :
    smallSampleAdvisory sel10W = true ∧ 10 ≤ sel10W.length := by decide

/-- C5 amended: the advisory is emitted exactly when the selected subset
has at most ten rows (the source compares with `<= 10`, not `< 10`). -/
theorem advisory_small_sample_amended (sel : List Record) :
    smallSampleAdvisory sel = true ↔ sel.length ≤ 10 := by
  simp [smallSampleAdvisory]

/-- C1: With at least ten selected rows, the trimmed variant is chosen
exactly when the upper tail spread `max - p90` strictly exceeds the body
spread `p90 - p75` of the selected claim column; the trimmed variant plots
the selected rows whose claim value is strictly below the 90th percentile
under the outliers label, and otherwise the full selection is plotted
under the plain label. -/
theorem chart_selector_skew_rule (sel : List Record) (h : 10 ≤ sel.length) :
    (listMaxQ (sel.map Record.claim_amount) -
        quantileQ (sel.map Record.claim_amount) (9 / 10) >
        quantileQ (sel.map Record.claim_amount) (9 / 10) -
        quantileQ (sel.map Record.claim_amount) (3 / 4) →
      chartDecision sel = some (sel.filter (fun r =>
          decide (r.claim_amount < quantileQ (sel.map Record.claim_amount) (9 / 10))),
        "Selected Data without Extreme Outliers")) ∧
    (¬ (listMaxQ (sel.map Record.claim_amount) -
        quantileQ (sel.map Record.claim_amount) (9 / 10) >
        quantileQ (sel.map Record.claim_amount) (9 / 10) -
        quantileQ (sel.map Record.claim_amount) (3 / 4)) →
      chartDecision sel = some (sel, "Selected Data")) := by
  constructor <;> intro hc <;> simp [chartDecision, h, hc]

/-- Witness for C1 on the synthetic skew sequence `[1, ..., 9, 1000]`:
the tail spread exceeds the body spread, so the trimmed variant with the
outliers label is chosen. -/
theorem chart_selector_skew_rule_witness :
    10 ≤ sel10W.length ∧
    chartDecision sel10W = some (sel10W.filter (fun r =>
        decide (r.claim_amount < quantileQ (sel10W.map Record.claim_amount) (9 / 10))),
      "Selected Data without Extreme Outliers") :=
  ⟨by decide, (chart_selector_skew_rule sel10W (by decide)).1 (by
    norm_num [sel10W, mkRec, listMaxQ, colMax?, quantileQ, List.insertionSort,
      List.orderedInsert, Int.toNat, List.getElem_cons_succ, List.getElem_cons_zero])⟩

/-- C2: For every mask, the comparison table has exactly seven rows, the
standard-deviation row having been dropped, with the display labels in the
fixed order (median before average), each row carrying the rounded
statistic over the selected, excluded and full claim columns. -/
theorem comparison_table_rows (data : List Record) (mask : List Bool) :
    descriptionTable data mask =
      [("Number of Rows", roundStat (countStat (selClaims data mask)),
          roundStat (countStat (excClaims data mask)),
          roundStat (countStat (allClaims data))),
       ("Minimum Value", roundStat (minStat (selClaims data mask)),
          roundStat (minStat (excClaims data mask)),
          roundStat (minStat (allClaims data))),
       ("25th Percentile Value", roundStat (quantStat (selClaims data mask) (1 / 4)),
          roundStat (quantStat (excClaims data mask) (1 / 4)),
          roundStat (quantStat (allClaims data) (1 / 4))),
       ("Median Value", roundStat (quantStat (selClaims data mask) (1 / 2)),
          roundStat (quantStat (excClaims data mask) (1 / 2)),
          roundStat (quantStat (allClaims data) (1 / 2))),
       ("Average Value", roundStat (meanStat (selClaims data mask)),
          roundStat (meanStat (excClaims data mask)),
          roundStat (meanStat (allClaims data))),
       ("75th Percentile Value", roundStat (quantStat (selClaims data mask) (3 / 4)),
          roundStat (quantStat (excClaims data mask) (3 / 4)),
          roundStat (quantStat (allClaims data) (3 / 4))),
       ("Maximum Value", roundStat (maxStat (selClaims data mask)),
          roundStat (maxStat (excClaims data mask)),
          roundStat (maxStat (allClaims data)))] ∧
    (descriptionTable data mask).length = 7 := by
  have h : descriptionTable data mask =
      [("Number of Rows", roundStat (countStat (selClaims data mask)),
          roundStat (countStat (excClaims data mask)),
          roundStat (countStat (allClaims data))),
       ("Minimum Value", roundStat (minStat (selClaims data mask)),
          roundStat (minStat (excClaims data mask)),
          roundStat (minStat (allClaims data))),
       ("25th Percentile Value", roundStat (quantStat (selClaims data mask) (1 / 4)),
          roundStat (quantStat (excClaims data mask) (1 / 4)),
          roundStat (quantStat (allClaims data) (1 / 4))),
       ("Median Value", roundStat (quantStat (selClaims data mask) (1 / 2)),
          roundStat (quantStat (excClaims data mask) (1 / 2)),
          roundStat (quantStat (allClaims data) (1 / 2))),
       ("Average Value", roundStat (meanStat (selClaims data mask)),
          roundStat (meanStat (excClaims data mask)),
          roundStat (meanStat (allClaims data))),
       ("75th Percentile Value", roundStat (quantStat (selClaims data mask) (3 / 4)),
          roundStat (quantStat (excClaims data mask) (3 / 4)),
          roundStat (quantStat (allClaims data) (3 / 4))),
       ("Maximum Value", roundStat (maxStat (selClaims data mask)),
          roundStat (maxStat (excClaims data mask)),
          roundStat (maxStat (allClaims data)))] := by
    simp [descriptionTable, describeR, describeQ, mergeOn, statDisplay,
      List.find?, List.filterMap, List.eraseIdx, List.zip, List.zipWith]
  exact ⟨h, by rw [h]; rfl⟩

lemma round2_zero : round2 0 = 0 := by norm_num [round2, roundHalfEven]

/-- C8: With a mask matching zero rows, the seven-row table is still
produced: the selected column holds row count `0` and missing values for
every other statistic, while the excluded and full-data columns both hold
the statistics of the full dataset. -/
theorem empty_selection_table (data : List Record) (mask : List Bool)
    (hlen : mask.length = data.length) (hfalse : ∀ b ∈ mask, b = false) :
    descriptionTable data mask =
      [("Number of Rows", StatVal.num 0, roundStat (countStat (allClaims data)),
          roundStat (countStat (allClaims data))),
       ("Minimum Value", StatVal.nan, roundStat (minStat (allClaims data)),
          roundStat (minStat (allClaims data))),
       ("25th Percentile Value", StatVal.nan, roundStat (quantStat (allClaims data) (1 / 4)),
          roundStat (quantStat (allClaims data) (1 / 4))),
       ("Median Value", StatVal.nan, roundStat (quantStat (allClaims data) (1 / 2)),
          roundStat (quantStat (allClaims data) (1 / 2))),
       ("Average Value", StatVal.nan, roundStat (meanStat (allClaims data)),
          roundStat (meanStat (allClaims data))),
       ("75th Percentile Value", StatVal.nan, roundStat (quantStat (allClaims data) (3 / 4)),
          roundStat (quantStat (allClaims data) (3 / 4))),
       ("Maximum Value", StatVal.nan, roundStat (maxStat (allClaims data)),
          roundStat (maxStat (allClaims data)))] := by
  have h1 : applyMask data mask = [] := applyMask_all_false data mask hfalse
  have h2 : applyMask data (negMask mask) = data := applyMask_neg_all_false data mask hlen hfalse
  simp [descriptionTable, selClaims, excClaims, allClaims, h1, h2, describeR, describeQ,
    mergeOn, statDisplay, countStat, meanStat, minStat, maxStat, quantStat, stdStat,
    colMin?, colMax?, roundStat, round2_zero, List.eraseIdx, List.zip, List.zipWith,
    List.find?, List.filterMap]

/-- One-row dataset used to instantiate the empty-selection table. -/
def dataW8 : List Record := [mkRec (some 30) 100 1 (PyVal.pyStr "Police")]

/-- Witness for C8: the all-false mask over a one-row dataset yields the
seven-row table with a zero count and missing selected-column cells. -/
theorem empty_selection_table_witness :
    ([false] : List Bool).length = dataW8.length ∧
    descriptionTable dataW8 [false] =
      [("Number of Rows", StatVal.num 0, roundStat (countStat (allClaims dataW8)),
          roundStat (countStat (allClaims dataW8))),
       ("Minimum Value", StatVal.nan, roundStat (minStat (allClaims dataW8)),
          roundStat (minStat (allClaims dataW8))),
       ("25th Percentile Value", StatVal.nan, roundStat (quantStat (allClaims dataW8) (1 / 4)),
          roundStat (quantStat (allClaims dataW8) (1 / 4))),
       ("Median Value", StatVal.nan, roundStat (quantStat (allClaims dataW8) (1 / 2)),
          roundStat (quantStat (allClaims dataW8) (1 / 2))),
       ("Average Value", StatVal.nan, roundStat (meanStat (allClaims dataW8)),
          roundStat (meanStat (allClaims dataW8))),
       ("75th Percentile Value", StatVal.nan, roundStat (quantStat (allClaims dataW8) (3 / 4)),
          roundStat (quantStat (allClaims dataW8) (3 / 4))),
       ("Maximum Value", StatVal.nan, roundStat (maxStat (allClaims dataW8)),
          roundStat (maxStat (allClaims dataW8)))] :=
  ⟨rfl, empty_selection_table dataW8 [false] rfl (by decide)⟩

/-- C10: the interaction pass is a pure function of the dataset and the
filter-panel state: equal selections give identical mask, table, advisory
and chart decision. -/
theorem pipeline_deterministic (data : List Record) (s1 s2 : Selections)
    (h : s1 = s2) : filterPipeline data s1 = filterPipeline data s2 := by
  rw [h]

/-- Witness for C10 at a concrete dataset and selection state. -/
theorem pipeline_deterministic_witness :
    filterPipeline sel10W (noneSelections 0 100) =
      filterPipeline sel10W (noneSelections 0 100) :=
  pipeline_deterministic sel10W (noneSelections 0 100) (noneSelections 0 100) rfl

/-- Two rows differing in bodily-injury count (0 and 1). -/
def dataC6 : List Record :=
  [mkRec (some 30) 100 0 (PyVal.pyStr "Police"),
   mkRec (some 35) 200 1 (PyVal.pyStr "Police")]

/-- The filter state choosing category `0` for bodily injuries and "None"
everywhere else, with the age slider spanning both rows. -/
def selC6 : Selections :=
  ⟨0, 100, PyVal.pyNone, PyVal.pyNone, PyVal.pyNone, PyVal.pyNone, PyVal.pyNone,
   PyVal.pyNone, PyVal.pyNone, PyVal.pyInt 0, PyVal.pyNone, PyVal.pyNone,
   PyVal.pyNone, PyVal.pyNone⟩

/-- C6, evaluation at the failing input: choosing bodily-injury category
`0` leaves the condition inert (`if status:` is false at the integer 0),
so the mask is all-true and the row with one bodily injury is selected as
well, instead of the equality filter the claim describes. -/
theorem bodily_injuries_zero_inert_eval :
    dataC6.map Record.bodily_injuries = [PyVal.pyInt 0, PyVal.pyInt 1] ∧
    allConditions dataC6 selC6 = [true, true] ∧
    applyMask dataC6 (allConditions dataC6 selC6) = dataC6 := by decide

/-- Two rows, the second with a missing age cell. -/
def dataC7 : List Record :=
  [mkRec (some 30) 100 1 (PyVal.pyStr "Police"),
   mkRec Option.none 200 1 (PyVal.pyStr "Police")]

/-- C7 counterexample: with every selectbox at "None" and the age slider
at its default full span (both bounds 30, from the only present age), the
missing-age row still fails `age >= 30`, so the mask is not all-true and
the selection is a proper subset of the dataset. -/
theorem inert_missing_age_counterexample :
    defaultMinAge dataC7 = some 30 ∧ defaultMaxAge dataC7 = some 30 ∧
    applyMask dataC7 (allConditions dataC7
      (noneSelections ((30 : ℤ) : ℚ) ((30 : ℤ) : ℚ))) ≠ dataC7 := by decide

/-- C7 amended: with every selectbox at "None" and the age slider at its
default full span, the combined mask is all-true and selects the whole
dataset, provided every record has a present, integer-valued age (records
with a missing age are excluded by the pandas comparison semantics). -/
theorem inert_mask_all_true_amended (data : List Record) (lo hi : ℤ)
    (hlo : defaultMinAge data = some lo) (hhi : defaultMaxAge data = some hi)
    (hages : ∀ r ∈ data, ∃ n : ℤ, r.age = some ((n : ℚ))) :
    allConditions data (noneSelections (lo : ℚ) (hi : ℚ)) = data.map (fun _ => true) ∧
    applyMask data (allConditions data (noneSelections (lo : ℚ) (hi : ℚ))) = data := by
  obtain ⟨m, hm⟩ : ∃ m, colMin? (presentAges data) = some m := by
    cases hcm : colMin? (presentAges data) with
    | none => simp [defaultMinAge, hcm] at hlo
    | some m => exact ⟨m, rfl⟩
  obtain ⟨M, hM⟩ : ∃ M, colMax? (presentAges data) = some M := by
    cases hcM : colMax? (presentAges data) with
    | none => simp [defaultMaxAge, hcM] at hhi
    | some M => exact ⟨M, rfl⟩
  have hlo2 : truncQ m = lo := by
    simpa [defaultMinAge, hm] using hlo
  have hhi2 : truncQ M = hi := by
    simpa [defaultMaxAge, hM] using hhi
  obtain ⟨rm, hrm, hrma⟩ := List.mem_filterMap.mp (colMin?_mem _ _ hm)
  obtain ⟨km, hkm⟩ := hages rm hrm
  have hmk : m = (km : ℚ) := Option.some.inj (hrma.symm.trans hkm)
  obtain ⟨rM, hrM, hrMa⟩ := List.mem_filterMap.mp (colMax?_mem _ _ hM)
  obtain ⟨kM, hkM⟩ := hages rM hrM
  have hMk : M = (kM : ℚ) := Option.some.inj (hrMa.symm.trans hkM)
  rw [hmk, truncQ_intCast] at hlo2
  rw [hMk, truncQ_intCast] at hhi2
  have hlom : (lo : ℚ) = m := by rw [← hlo2]; exact hmk.symm
  have hhiM : (hi : ℚ) = M := by rw [← hhi2]; exact hMk.symm
  have hrow : ∀ r ∈ data, rowPred (noneSelections (lo : ℚ) (hi : ℚ)) r = true := by
    intro r hr
    obtain ⟨n, hn⟩ := hages r hr
    have hmem2 : ((n : ℚ)) ∈ presentAges data := mem_presentAges hr hn
    have hge : (lo : ℚ) ≤ (n : ℚ) := by rw [hlom]; exact colMin?_le _ _ _ hm hmem2
    have hle : (n : ℚ) ≤ (hi : ℚ) := by rw [hhiM]; exact colMax?_ge _ _ _ hM hmem2
    simp [rowPred, noneSelections, catPred, pyTruthy, pyGeAge, pyLeAge, hn, hge, hle]
  constructor
  · rw [allConditions_map]
    exact List.map_congr_left hrow
  · rw [allConditions_map]
    exact applyMask_map_all_true data _ hrow

/-- One-row dataset with a present, integer age. -/
def dataW7 : List Record := [mkRec (some 30) 100 1 (PyVal.pyStr "Police")]

/-- Witness for the amended C7 on a one-row dataset with age 30. -/
theorem inert_mask_all_true_amended_witness :
    defaultMinAge dataW7 = some 30 ∧ defaultMaxAge dataW7 = some 30 ∧
    applyMask dataW7 (allConditions dataW7
      (noneSelections ((30 : ℤ) : ℚ) ((30 : ℤ) : ℚ))) = dataW7 :=
  ⟨by decide, by decide,
    (inert_mask_all_true_amended dataW7 30 30 (by decide) (by decide)
      (fun r hr => ⟨30, by simp only [dataW7, List.mem_singleton] at hr; subst hr; decide⟩)).2⟩

/-- C9 amended: predicates built from the field values of a record present
in the dataset select that record, provided the record age is present and
no categorical value of the record is the missing value `NaN` (a `NaN`
status is truthy in Python yet compares unequal to every cell, itself
included, so it would select nothing). -/
theorem roundtrip_selects_record_amended (data : List Record) (r : Record) (a : ℚ)
    (hmem : r ∈ data) (ha : r.age = some a)
    (h1 : r.gender ≠ PyVal.pyNaN) (h2 : r.accident_type ≠ PyVal.pyNaN)
    (h3 : r.collision_type ≠ PyVal.pyNaN) (h4 : r.incident_severity ≠ PyVal.pyNaN)
    (h5 : r.authorities_contacted ≠ PyVal.pyNaN) (h6 : r.state ≠ PyVal.pyNaN)
    (h7 : r.property_damage ≠ PyVal.pyNaN) (h8 : r.bodily_injuries ≠ PyVal.pyNaN)
    (h9 : r.police_report_available ≠ PyVal.pyNaN) (h10 : r.auto_make ≠ PyVal.pyNaN)
    (h11 : r.auto_model ≠ PyVal.pyNaN) (h12 : r.auto_year ≠ PyVal.pyNaN) :
    r ∈ applyMask data (allConditions data (selFromRecord r a)) := by
  rw [allConditions_map]
  refine mem_applyMask_map data _ r hmem ?_
  simp [rowPred, selFromRecord, pyGeAge, pyLeAge, ha,
    catPred_self r.gender h1, catPred_self r.accident_type h2,
    catPred_self r.collision_type h3, catPred_self r.incident_severity h4,
    catPred_self r.authorities_contacted h5, catPred_self r.state h6,
    catPred_self r.property_damage h7, catPred_self r.bodily_injuries h8,
    catPred_self r.police_report_available h9, catPred_self r.auto_make h10,
    catPred_self r.auto_model h11, catPred_self r.auto_year h12]

/-- A record with all field values present. -/
def recW9 : Record := mkRec (some 30) 100 1 (PyVal.pyStr "Police")

/-- One-row dataset for the round-trip witness. -/
def dataW9 : List Record := [recW9]

/-- Witness for the amended C9 on a fully-present record. -/
theorem roundtrip_selects_record_amended_witness :
    recW9 ∈ dataW9 ∧
    recW9 ∈ applyMask dataW9 (allConditions dataW9 (selFromRecord recW9 30)) :=
  ⟨by decide,
    roundtrip_selects_record_amended dataW9 recW9 30 (by decide) rfl
      (by decide) (by decide) (by decide) (by decide) (by decide) (by decide)
      (by decide) (by decide) (by decide) (by decide) (by decide) (by decide)⟩

/-- A record whose authorities-contacted cell is missing (`NaN`), as the
source anticipates for that column (it is the one whose selectbox options
are built with `dropna()`). -/
def recC9 : Record := mkRec (some 30) 100 1 PyVal.pyNaN

/-- One-row dataset for the round-trip counterexample. -/
def dataC9 : List Record := [recC9]

/-- C9 counterexample: building the predicates from the field values of a
record whose authorities-contacted cell is missing selects nothing, so the
record is not selected although it is present in the dataset. -/
theorem roundtrip_missing_value_counterexample :
    recC9 ∈ dataC9 ∧ recC9.age = some 30 ∧
    recC9 ∉ applyMask dataC9 (allConditions dataC9 (selFromRecord recC9 30)) := by decide
